import Mathlib

/-!
Shallow embedding of the `july` repository (src/components/ChristmasScene.tsx
and the configuration/app shell in src/unnamed/part_000): a festive particle
scene with a glitter tree, a heart topper, a swirling base and falling snow.

Randomness (`Math.random()`, always a value in `[0, 1)`) is modelled by
passing the drawn random values in explicitly; float arithmetic is modelled
over the reals.  Each procedural generator consumes one record of random
draws per particle, in the order the source draws them.
-/

namespace July

/-- A value drawn by `Math.random()`: it lies in the half-open interval `[0, 1)`. -/
def isRand (r : ℝ) : Prop := 0 ≤ r ∧ r < 1

/-! ## Shader pair: breathing and sparkle logic (sparkleVertexShader)

From `src/components/ChristmasScene.tsx`, lines 65-79:
```
float t = uTime * speed + phase;
float sineWave = 0.5 + 0.5 * sin(t); // Range 0.0 -> 1.0
vOpacity = 0.5 + 0.5 * sineWave;
vIntensity = 0.8 + 2.2 * sineWave;
float sizePulse = 0.8 + 0.4 * sineWave;
gl_PointSize = size * sizePulse * uPixelRatio * (200.0 / -mvPosition.z);
```
-/

/-- `sineWave` of the vertex shader: `0.5 + 0.5 * sin(uTime * speed + phase)`. -/
noncomputable def sineWave (uTime speed phase : ℝ) : ℝ :=
  0.5 + 0.5 * Real.sin (uTime * speed + phase)

/-- `vOpacity = 0.5 + 0.5 * sineWave`. -/
noncomputable def vOpacity (uTime speed phase : ℝ) : ℝ :=
  0.5 + 0.5 * sineWave uTime speed phase

/-- `vIntensity = 0.8 + 2.2 * sineWave`. -/
noncomputable def vIntensity (uTime speed phase : ℝ) : ℝ :=
  0.8 + 2.2 * sineWave uTime speed phase

/-- `sizePulse = 0.8 + 0.4 * sineWave`. -/
noncomputable def sizePulse (uTime speed phase : ℝ) : ℝ :=
  0.8 + 0.4 * sineWave uTime speed phase

/-- The view-space depth of a vertex whose camera-space z is `mvz`
(the camera looks down the negative z axis, so the depth is `-mvz`). -/
noncomputable def viewDepth (mvz : ℝ) : ℝ := -mvz

/-- `gl_PointSize = size * sizePulse * uPixelRatio * (200.0 / -mvPosition.z)`. -/
noncomputable def glPointSize (size uTime speed phase uPixelRatio mvz : ℝ) : ℝ :=
  size * sizePulse uTime speed phase * uPixelRatio * (200.0 / -mvz)

/-! ## Ambient snow: creation (createSnow) and the per-frame update (animate)

`createSnow` (lines 364-392) fills a flat position array with
`(Math.random()-0.5)*50, (Math.random()-0.5)*40, (Math.random()-0.5)*50`
per particle; `animate` (lines 422-430) then walks the flat array with
`for (i = 1; i < pos.length; i += 3)` doing
```
pos[i] -= 0.03;
pos[i-1] += Math.sin(time * 0.5 + pos[i]) * 0.01;
if (pos[i] < -20) pos[i] = 20;
```
-/

/-- One snow particle position from the three `Math.random()` draws of
`createSnow`: `((r1-0.5)*50, (r2-0.5)*40, (r3-0.5)*50)`. -/
noncomputable def snowPosition (r1 r2 r3 : ℝ) : ℝ × ℝ × ℝ :=
  ((r1 - 0.5) * 50, (r2 - 0.5) * 40, (r3 - 0.5) * 50)

/-- The flat `Float32Array` layout of a list of `(x, y, z)` particle triples. -/
def flat3 : List (ℝ × ℝ × ℝ) → List ℝ
  | [] => []
  | p :: ps => p.1 :: p.2.1 :: p.2.2 :: flat3 ps

/-- The initial snow position buffer `createSnow` builds from the list of
per-particle random draws. -/
noncomputable def createSnowPositions (rs : List (ℝ × ℝ × ℝ)) : List ℝ :=
  flat3 (rs.map fun r => snowPosition r.1 r.2.1 r.2.2)

/-- `pos[i] -= 0.03`: the constant-rate fall applied to a y coordinate. -/
noncomputable def snowFallY (y : ℝ) : ℝ := y - 0.03

/-- `if (pos[i] < -20) pos[i] = 20`: the wrap applied to a fallen y coordinate. -/
noncomputable def snowWrapY (y : ℝ) : ℝ := if y < -20 then 20 else y

/-- `pos[i-1] += Math.sin(time * 0.5 + pos[i]) * 0.01`: the sinusoidal
horizontal drift; in the source `pos[i]` has already been decremented and not
yet wrapped when the drift reads it. -/
noncomputable def snowDriftX (time x y : ℝ) : ℝ :=
  x + Real.sin (time * 0.5 + y) * 0.01

/-- The per-tick snow update over the flat position array, exactly as the
loop `for (i = 1; i < pos.length; i += 3)` in `animate` walks it: index `i`
(a y coordinate) falls and wraps, index `i-1` (the matching x) drifts using
the fallen pre-wrap y, and indices `≡ 2 (mod 3)` (the z coordinates) are
never touched.  A trailing `[x, y]` pair is still processed, as the loop
guard `i < pos.length` admits it; a trailing singleton is not. -/
noncomputable def snowUpdate (time : ℝ) : List ℝ → List ℝ
  | x :: y :: z :: rest =>
      snowDriftX time x (snowFallY y) :: snowWrapY (snowFallY y) :: z ::
        snowUpdate time rest
  | [x, y] => [snowDriftX time x (snowFallY y), snowWrapY (snowFallY y)]
  | l => l

/-- One whole particle under one tick of the snow update. -/
noncomputable def snowTick (time : ℝ) (p : ℝ × ℝ × ℝ) : ℝ × ℝ × ℝ :=
  (snowDriftX time p.1 (snowFallY p.2.1), snowWrapY (snowFallY p.2.1), p.2.2)

/-- Iterating the snow update over a list of tick times. -/
noncomputable def snowRun : List ℝ → List ℝ → List ℝ
  | [], l => l
  | t :: ts, l => snowRun ts (snowUpdate t l)

/-- Every y coordinate (index `≡ 1 (mod 3)`) of a flat snow buffer lies
within `[-20, 20]`. -/
def yBounded (l : List ℝ) : Prop :=
  ∀ (i : ℕ) (y : ℝ), i % 3 = 1 → l[i]? = some y → -20 ≤ y ∧ y ≤ 20

/-! ## Point-cloud data and the shader-driven generators

`createGlitterTree`, `createSolidHeart` and `createSwirlingBase` each push
five parallel attribute arrays (position, color, size, speed, phase), one
entry per particle per array, consuming random draws in source order. -/

/-- The five parallel attribute arrays of a shader-driven particle system
(positions and colors are arrays of triples, itemSize 3 in the source). -/
structure PointCloudData where
  positions : List (ℝ × ℝ × ℝ)
  colors : List (ℝ × ℝ × ℝ)
  sizes : List ℝ
  speeds : List ℝ
  phases : List ℝ

/-- Componentwise `THREE.Color.lerp`: `c + (target - c) * alpha`. -/
noncomputable def colorLerp (c target : ℝ × ℝ × ℝ) (alpha : ℝ) : ℝ × ℝ × ℝ :=
  (c.1 + (target.1 - c.1) * alpha,
   c.2.1 + (target.2.1 - c.2.1) * alpha,
   c.2.2 + (target.2.2 - c.2.2) * alpha)

/-! ### Tiered glitter tree (createGlitterTree, lines 179-260) -/

/-- The random draws one tree particle consumes, in source order:
tier pick, height within the tier, radial ratio base, angle, palette pick,
size, speed, phase. -/
structure TreeRand where
  tierR : ℝ
  yR : ℝ
  radR : ℝ
  thetaR : ℝ
  palR : ℝ
  sizeR : ℝ
  speedR : ℝ
  phaseR : ℝ

/-- All eight draws of a tree particle come from `Math.random()`. -/
def isRandTR (r : TreeRand) : Prop :=
  isRand r.tierR ∧ isRand r.yR ∧ isRand r.radR ∧ isRand r.thetaR ∧
  isRand r.palR ∧ isRand r.sizeR ∧ isRand r.speedR ∧ isRand r.phaseR

/-- `const tiers = 8`. -/
noncomputable def treeTiers : ℝ := 8

/-- `const totalHeight = 12`. -/
noncomputable def treeTotalHeight : ℝ := 12

/-- `const maxRadius = 5.5`. -/
noncomputable def treeMaxRadius : ℝ := 5.5

/-- `tierIndex = Math.floor(Math.random() * tiers)`, as the real number the
source then computes with. -/
noncomputable def tierIndex (r : TreeRand) : ℝ := (⌊r.tierR * treeTiers⌋ : ℤ)

/-- `tierHeightStart = (tierIndex / tiers) * totalHeight`. -/
noncomputable def tierHeightStart (r : TreeRand) : ℝ :=
  tierIndex r / treeTiers * treeTotalHeight

/-- `tierHeightEnd = ((tierIndex + 0.9) / tiers) * totalHeight`. -/
noncomputable def tierHeightEnd (r : TreeRand) : ℝ :=
  (tierIndex r + 0.9) / treeTiers * treeTotalHeight

/-- `y = tierHeightStart + Math.random() * (tierHeightEnd - tierHeightStart)`
(the raw height, before the `y - 6` shift stored in the position array). -/
noncomputable def treeY (r : TreeRand) : ℝ :=
  tierHeightStart r + r.yR * (tierHeightEnd r - tierHeightStart r)

/-- `tierProgress = (y - tierHeightStart) / (tierHeightEnd - tierHeightStart)`. -/
noncomputable def tierProgress (r : TreeRand) : ℝ :=
  (treeY r - tierHeightStart r) / (tierHeightEnd r - tierHeightStart r)

/-- `overallProgress = y / totalHeight`. -/
noncomputable def overallProgress (r : TreeRand) : ℝ := treeY r / treeTotalHeight

/-- `radiusAtY = maxRadius * (1 - overallProgress)`, then
`radiusAtY *= (1.0 + 0.3 * (1 - tierProgress))` (the tier flare). -/
noncomputable def radiusAtY (r : TreeRand) : ℝ :=
  treeMaxRadius * (1 - overallProgress r) * (1.0 + 0.3 * (1 - tierProgress r))

/-- `rRatio = Math.pow(Math.random(), 0.8)`. -/
noncomputable def rRatio (r : TreeRand) : ℝ := r.radR ^ (0.8 : ℝ)

/-- `r = radiusAtY * rRatio`. -/
noncomputable def treeR (r : TreeRand) : ℝ := radiusAtY r * rRatio r

/-- `theta = Math.random() * Math.PI * 2`. -/
noncomputable def treeTheta (r : TreeRand) : ℝ := r.thetaR * Real.pi * 2

/-- The position pushed for one tree particle:
`(r * cos(theta), y - 6, r * sin(theta))`. -/
noncomputable def treePosition (r : TreeRand) : ℝ × ℝ × ℝ :=
  (treeR r * Real.cos (treeTheta r), treeY r - 6, treeR r * Real.sin (treeTheta r))

/-- The five-color palette, hex components scaled by 255 as `THREE.Color`
stores them (color-space management left aside: no claim depends on it). -/
noncomputable def treePalette : List (ℝ × ℝ × ℝ) :=
  [(255 / 255, 0 / 255, 127 / 255),    -- 0xFF007F bright rose
   (255 / 255, 20 / 255, 147 / 255),   -- 0xFF1493 deep neon pink
   (199 / 255, 21 / 255, 133 / 255),   -- 0xC71585 medium violet red
   (255 / 255, 215 / 255, 0 / 255),    -- 0xFFD700 gold
   (255 / 255, 105 / 255, 180 / 255)]  -- 0xFF69B4 hot pink

/-- `0xFFD700`. -/
noncomputable def goldColor : ℝ × ℝ × ℝ := (255 / 255, 215 / 255, 0 / 255)

/-- `0x880022`. -/
noncomputable def deepRedColor : ℝ × ℝ × ℝ := (136 / 255, 0 / 255, 34 / 255)

/-- The color pushed for one tree particle: a palette sample, lerped 0.4
toward gold when `rRatio > 0.85` and then 0.6 toward deep red when
`rRatio < 0.3`. -/
noncomputable def treeColor (r : TreeRand) : ℝ × ℝ × ℝ :=
  let cref := treePalette.getD (⌊r.palR * 5⌋).toNat (0, 0, 0)
  let c1 := if rRatio r > 0.85 then colorLerp cref goldColor 0.4 else cref
  if rRatio r < 0.3 then colorLerp c1 deepRedColor 0.6 else c1

/-- `sizes.push(0.2 + Math.random() * 0.4)`. -/
noncomputable def treeSize (r : TreeRand) : ℝ := 0.2 + r.sizeR * 0.4

/-- `speeds.push(1.0 + Math.random() * 3.0)`. -/
noncomputable def treeSpeed (r : TreeRand) : ℝ := 1.0 + r.speedR * 3.0

/-- `phases.push(Math.random() * Math.PI * 2)`. -/
noncomputable def treePhase (r : TreeRand) : ℝ := r.phaseR * Real.pi * 2

/-- The five parallel arrays `createGlitterTree` builds, one entry pushed
onto each array per particle. -/
noncomputable def createGlitterTree : List TreeRand → PointCloudData
  | [] => ⟨[], [], [], [], []⟩
  | r :: rs =>
      let d := createGlitterTree rs
      ⟨treePosition r :: d.positions, treeColor r :: d.colors,
       treeSize r :: d.sizes, treeSpeed r :: d.speeds, treePhase r :: d.phases⟩

/-! ### Solid heart topper (createSolidHeart, lines 263-311) -/

/-- The random draws one heart particle consumes, in source order:
curve parameter, depth jitter, volume scale, color pick, size, speed, phase. -/
structure HeartRand where
  tR : ℝ
  zR : ℝ
  volR : ℝ
  colR : ℝ
  sizeR : ℝ
  speedR : ℝ
  phaseR : ℝ

/-- All seven draws of a heart particle come from `Math.random()`. -/
def isRandHR (r : HeartRand) : Prop :=
  isRand r.tR ∧ isRand r.zR ∧ isRand r.volR ∧ isRand r.colR ∧
  isRand r.sizeR ∧ isRand r.speedR ∧ isRand r.phaseR

/-- `x = 16 * Math.pow(Math.sin(t), 3)`: the parametric heart boundary, x. -/
noncomputable def heartCurveX (t : ℝ) : ℝ := 16 * Real.sin t ^ 3

/-- `y = 13*cos(t) - 5*cos(2t) - 2*cos(3t) - cos(4t)`: the parametric heart
boundary, y. -/
noncomputable def heartCurveY (t : ℝ) : ℝ :=
  13 * Real.cos t - 5 * Real.cos (2 * t) - 2 * Real.cos (3 * t) - Real.cos (4 * t)

/-- `t = Math.random() * Math.PI * 2`. -/
noncomputable def heartT (r : HeartRand) : ℝ := r.tR * Real.pi * 2

/-- `z = (Math.random() - 0.5) * 6`: the bounded random depth jitter. -/
noncomputable def heartJitterZ (r : HeartRand) : ℝ := (r.zR - 0.5) * 6

/-- `scaleVol = Math.sqrt(Math.random())`: the sqrt-random interior fill. -/
noncomputable def heartScaleVol (r : HeartRand) : ℝ := Real.sqrt r.volR

/-- The position pushed for one heart particle:
`(x*scaleVol*0.05, y*scaleVol*0.05 + 6.2, z*scaleVol*0.05)`. -/
noncomputable def heartPosition (r : HeartRand) : ℝ × ℝ × ℝ :=
  (heartCurveX (heartT r) * heartScaleVol r * 0.05,
   heartCurveY (heartT r) * heartScaleVol r * 0.05 + 6.2,
   heartJitterZ r * heartScaleVol r * 0.05)

/-- `Math.random() > 0.3 ? 0xFF0055 : 0xFFD700`: the vibrant heart color. -/
noncomputable def heartColor (r : HeartRand) : ℝ × ℝ × ℝ :=
  if r.colR > 0.3 then (255 / 255, 0 / 255, 85 / 255) else (255 / 255, 215 / 255, 0 / 255)

/-- `sizes.push(0.3 + Math.random() * 0.4)`. -/
noncomputable def heartSize (r : HeartRand) : ℝ := 0.3 + r.sizeR * 0.4

/-- `speeds.push(2.0 + Math.random() * 3.0)`. -/
noncomputable def heartSpeed (r : HeartRand) : ℝ := 2.0 + r.speedR * 3.0

/-- `phases.push(Math.random() * Math.PI * 2)`. -/
noncomputable def heartPhase (r : HeartRand) : ℝ := r.phaseR * Real.pi * 2

/-- The five parallel arrays `createSolidHeart` builds. -/
noncomputable def createSolidHeart : List HeartRand → PointCloudData
  | [] => ⟨[], [], [], [], []⟩
  | r :: rs =>
      let d := createSolidHeart rs
      ⟨heartPosition r :: d.positions, heartColor r :: d.colors,
       heartSize r :: d.sizes, heartSpeed r :: d.speeds, heartPhase r :: d.phases⟩

/-- The filled heart: every point on or inside the boundary curve, reached by
shrinking a boundary point `(x(t), y(t))`, `t ∈ [0, 2π)`, toward the origin
by a factor `c ∈ [0, 1]` (the region the sqrt-random area scaling fills). -/
def heartRegion : Set (ℝ × ℝ) :=
  {p | ∃ t c : ℝ, 0 ≤ t ∧ t < 2 * Real.pi ∧ 0 ≤ c ∧ c ≤ 1 ∧
       p = (c * heartCurveX t, c * heartCurveY t)}

/-! ### Swirling base (createSwirlingBase, lines 314-361) -/

/-- The random draws one base particle consumes, in source order:
radius, angle, hue, size, speed, phase. -/
structure BaseRand where
  rR : ℝ
  angR : ℝ
  hueR : ℝ
  sizeR : ℝ
  speedR : ℝ
  phaseR : ℝ

/-- All six draws of a base particle come from `Math.random()`. -/
def isRandBR (r : BaseRand) : Prop :=
  isRand r.rR ∧ isRand r.angR ∧ isRand r.hueR ∧ isRand r.sizeR ∧
  isRand r.speedR ∧ isRand r.phaseR

/-- `r = 3 + Math.random() * 12`. -/
noncomputable def baseRadius (r : BaseRand) : ℝ := 3 + r.rR * 12

/-- `angle = (Math.random() * Math.PI * 2) + (r * 0.3)`. -/
noncomputable def baseAngle (r : BaseRand) : ℝ :=
  r.angR * Real.pi * 2 + baseRadius r * 0.3

/-- The position pushed for one base particle:
`(r*cos(angle), -6 + sin(r*0.5 + angle)*0.15, r*sin(angle))`. -/
noncomputable def basePosition (r : BaseRand) : ℝ × ℝ × ℝ :=
  (baseRadius r * Real.cos (baseAngle r),
   -6 + Real.sin (baseRadius r * 0.5 + baseAngle r) * 0.15,
   baseRadius r * Real.sin (baseAngle r))

/-- `hue2rgb` as `THREE.Color.setHSL` uses it (external library helper). -/
noncomputable def hue2rgb (p q t0 : ℝ) : ℝ :=
  let t := if t0 < 0 then t0 + 1 else if t0 > 1 then t0 - 1 else t0
  if t < 1 / 6 then p + (q - p) * 6 * t
  else if t < 1 / 2 then q
  else if t < 2 / 3 then p + (q - p) * 6 * (2 / 3 - t)
  else p

/-- `THREE.Color.setHSL` (external library): hue wrapped into `[0, 1)`,
saturation and lightness clamped, converted to RGB. -/
noncomputable def setHSL (h s l : ℝ) : ℝ × ℝ × ℝ :=
  let h1 := Int.fract h
  let s1 := min (max s 0) 1
  let l1 := min (max l 0) 1
  if s1 = 0 then (l1, l1, l1)
  else
    let p := if l1 ≤ 0.5 then l1 * (1 + s1) else l1 + s1 - l1 * s1
    let q := 2 * l1 - p
    (hue2rgb q p (h1 + 1 / 3), hue2rgb q p h1, hue2rgb q p (h1 - 1 / 3))

/-- `new THREE.Color().setHSL(0.9 + Math.random()*0.1, 0.7, 0.5)`. -/
noncomputable def baseColor (r : BaseRand) : ℝ × ℝ × ℝ :=
  setHSL (0.9 + r.hueR * 0.1) 0.7 0.5

/-- `sizes.push(0.2 + Math.random() * 0.2)`. -/
noncomputable def baseSize (r : BaseRand) : ℝ := 0.2 + r.sizeR * 0.2

/-- `speeds.push(1.0 + Math.random())`. -/
noncomputable def baseSpeed (r : BaseRand) : ℝ := 1.0 + r.speedR

/-- `phases.push(Math.random() * 10)`. -/
noncomputable def basePhase (r : BaseRand) : ℝ := r.phaseR * 10

/-- The five parallel arrays `createSwirlingBase` builds. -/
noncomputable def createSwirlingBase : List BaseRand → PointCloudData
  | [] => ⟨[], [], [], [], []⟩
  | r :: rs =>
      let d := createSwirlingBase rs
      ⟨basePosition r :: d.positions, baseColor r :: d.colors,
       baseSize r :: d.sizes, baseSpeed r :: d.speeds, basePhase r :: d.phases⟩

/-! ### Geometry attributes and materials

`createGlitterTree`, `createSolidHeart` and `createSwirlingBase` each call
`geometry.setAttribute` for position, color, size, speed, phase and build a
`THREE.ShaderMaterial` on the shared sparkle shaders; `createSnow` sets only
`position` and uses a plain `THREE.PointsMaterial`. -/

/-- Which kind of material a particle system is rendered with. -/
inductive MaterialKind where
  | pointsMat : MaterialKind
  | shaderMat : MaterialKind
deriving DecidableEq

/-- The attribute names the tree, heart and base geometries set. -/
def sparkleAttributeNames : List String :=
  ["position", "color", "size", "speed", "phase"]

/-- The attribute names the snow geometry sets: only `position`. -/
def snowAttributeNames : List String := ["position"]

/-- The snow system's material: `new THREE.PointsMaterial({...})`. -/
def snowMaterialKind : MaterialKind := MaterialKind.pointsMat

/-- The tree, heart and base material: `new THREE.ShaderMaterial({...})`. -/
def sparkleMaterialKind : MaterialKind := MaterialKind.shaderMat

/-- The set of x coordinate values the snow generator can produce. -/
noncomputable def snowXReach (v : ℝ) : Prop :=
  ∃ r1 r2 r3 : ℝ, isRand r1 ∧ isRand r2 ∧ isRand r3 ∧
    (snowPosition r1 r2 r3).1 = v

/-- The set of y coordinate values the snow generator can produce. -/
noncomputable def snowYReach (v : ℝ) : Prop :=
  ∃ r1 r2 r3 : ℝ, isRand r1 ∧ isRand r2 ∧ isRand r3 ∧
    (snowPosition r1 r2 r3).2.1 = v

/-- A cube-shaped bounding volume, as C7 words it, would give the snow
generator equal reach on the x and y axes. -/
noncomputable def snowBoundsAreCube : Prop := ∀ v : ℝ, snowXReach v ↔ snowYReach v

/-! ### Render pipeline state: setup, resize (onWindowResize), teardown -/

/-- The mutable render-pipeline state the resize handler touches: camera
aspect, renderer size, composer size and the `uPixelRatio` uniform. -/
structure ViewState where
  cameraAspect : ℝ
  rendererSize : ℝ × ℝ
  composerSize : ℝ × ℝ
  uPixelRatio : ℝ

/-- The view state scene setup builds from the mount's dimensions:
`camera.aspect = width / height`, `renderer.setSize(width, height)`, the
composer created at the renderer's size, and the pixel-ratio uniform
`Math.min(window.devicePixelRatio, 2)`. -/
noncomputable def initialViewState (w h dpr : ℝ) : ViewState :=
  { cameraAspect := w / h, rendererSize := (w, h), composerSize := (w, h),
    uPixelRatio := min dpr 2 }

/-- `onWindowResize` (lines 438-448): a no-op when `mountRef.current` is
absent; otherwise it re-reads the container size, sets the camera aspect,
resizes renderer and composer, and re-clamps the pixel-ratio uniform. -/
noncomputable def onWindowResize (mount : Option (ℝ × ℝ)) (dpr : ℝ)
    (st : ViewState) : ViewState :=
  match mount with
  | none => st
  | some (w, h) =>
      { cameraAspect := w / h, rendererSize := (w, h), composerSize := (w, h),
        uPixelRatio := min dpr 2 }

/-- The synthesized soft-circle texture (`createBokehTexture`, lines 153-167):
a 64x64 canvas; the radial gradient is painted only when the 2D context is
available, and a `CanvasTexture` over the canvas is returned either way. -/
structure BokehTexture where
  canvasWidth : ℕ
  canvasHeight : ℕ
  painted : Bool

/-- `createBokehTexture`: when `canvas.getContext('2d')` yields a context the
gradient is drawn, otherwise the canvas stays blank; a texture is returned in
both cases. -/
def createBokehTexture (ctxAvailable : Bool) : BokehTexture :=
  { canvasWidth := 64, canvasHeight := 64, painted := ctxAvailable }

/-- The state owned by one mounted scene: the view state, the texture, the
global time uniform, the CPU snow buffer, the heart scale, whether an
animation frame is scheduled, whether the resize listener is attached, and
whether teardown has disposed the renderer and cleared the scene. -/
structure SceneState where
  view : ViewState
  texture : BokehTexture
  uTime : ℝ
  snow : List ℝ
  heartScale : ℝ
  rafPending : Bool
  listenerAttached : Bool
  rendererDisposed : Bool
  sceneCleared : Bool

/-- One run of the `animate` body at elapsed time `t`: it schedules the next
frame (`requestAnimationFrame(animate)`), writes the time uniform, recomputes
the heartbeat scale `1 + sin(t*3)*0.05` and mutates the snow buffer. -/
noncomputable def animateFrame (t : ℝ) (s : SceneState) : SceneState :=
  { s with rafPending := true,
           uTime := t,
           heartScale := 1 + Real.sin (t * 3) * 0.05,
           snow := snowUpdate t s.snow }

/-- The `useEffect` setup: when the mount container is absent it returns
without creating anything; otherwise it builds the scene state, runs
`animate()` once at the initial clock reading `t0` (which schedules the
recurring frame), and attaches the resize listener. -/
noncomputable def setupScene (mount : Option (ℝ × ℝ)) (ctxAvailable : Bool)
    (dpr : ℝ) (snowRands : List (ℝ × ℝ × ℝ)) (t0 : ℝ) : Option SceneState :=
  match mount with
  | none => none
  | some (w, h) =>
      some (animateFrame t0
        { view := initialViewState w h dpr
          texture := createBokehTexture ctxAvailable
          uTime := 0
          snow := createSnowPositions snowRands
          heartScale := 1
          rafPending := false
          listenerAttached := true
          rendererDisposed := false
          sceneCleared := false })

/-- The browser-driven events a mounted scene can still receive: a vsync
callback (which runs `animate` only when a frame is scheduled) and a window
resize (which runs `onWindowResize` only while the listener is attached). -/
inductive SceneEvent where
  | vsync : ℝ → SceneEvent
  | resize : Option (ℝ × ℝ) → ℝ → SceneEvent

/-- Deliver one browser event to the scene state. -/
noncomputable def handleEvent : SceneEvent → SceneState → SceneState
  | SceneEvent.vsync t, s => if s.rafPending then animateFrame t s else s
  | SceneEvent.resize mount dpr, s =>
      if s.listenerAttached then { s with view := onWindowResize mount dpr s.view }
      else s

/-- Deliver a sequence of browser events. -/
noncomputable def runEvents : List SceneEvent → SceneState → SceneState
  | [], s => s
  | e :: es, s => runEvents es (handleEvent e s)

/-- The `useEffect` cleanup (lines 450-455): remove the resize listener,
cancel the pending animation frame, dispose the renderer, clear the scene. -/
noncomputable def cleanup (s : SceneState) : SceneState :=
  { s with listenerAttached := false,
           rafPending := false,
           rendererDisposed := true,
           sceneCleared := true }

/-- A concrete tree particle draw, every component `1/2`. -/
noncomputable def sampleTreeRand : TreeRand :=
  ⟨1 / 2, 1 / 2, 1 / 2, 1 / 2, 1 / 2, 1 / 2, 1 / 2, 1 / 2⟩

/-- A concrete heart particle draw, every component `1/2`. -/
noncomputable def sampleHeartRand : HeartRand :=
  ⟨1 / 2, 1 / 2, 1 / 2, 1 / 2, 1 / 2, 1 / 2, 1 / 2⟩

/-! ## Theorems -/

theorem sineWave_mem (uTime speed phase : ℝ) :
    0 ≤ sineWave uTime speed phase ∧ sineWave uTime speed phase ≤ 1 := by
  have h1 := Real.neg_one_le_sin (uTime * speed + phase)
  have h2 := Real.sin_le_one (uTime * speed + phase)
  constructor <;> (unfold sineWave; nlinarith)

/-- C3: for every time, per-particle speed and phase, the breathing scalar
`0.5 + 0.5*sin(uTime*speed+phase)` lies in `[0,1]`, the derived opacity lies in
`[0.5, 1.0]`, the derived HDR intensity lies in `[0.8, 3.0]`, the size pulse
lies in `[0.8, 1.2]`, and the final point size equals base size times size
pulse times the pixel-ratio uniform times the perspective attenuation factor
`200 / viewDepth` (where the view-space depth is `-mvPosition.z`). -/
theorem breathing_bounds_and_point_size
    (uTime speed phase size uPixelScale mvz : ℝ) :
    (0 ≤ sineWave uTime speed phase ∧ sineWave uTime speed phase ≤ 1) ∧
    (0.5 ≤ vOpacity uTime speed phase ∧ vOpacity uTime speed phase ≤ 1.0) ∧
    (0.8 ≤ vIntensity uTime speed phase ∧ vIntensity uTime speed phase ≤ 3.0) ∧
    (0.8 ≤ sizePulse uTime speed phase ∧ sizePulse uTime speed phase ≤ 1.2) ∧
    glPointSize size uTime speed phase uPixelScale mvz
      = size * sizePulse uTime speed phase * uPixelScale * (200 / viewDepth mvz) := by
  obtain ⟨h0, h1⟩ := sineWave_mem uTime speed phase
  refine ⟨⟨h0, h1⟩, ⟨?_, ?_⟩, ⟨?_, ?_⟩, ⟨?_, ?_⟩, ?_⟩
  · simp only [vOpacity]; nlinarith
  · simp only [vOpacity]; nlinarith
  · simp only [vIntensity]; nlinarith
  · simp only [vIntensity]; nlinarith
  · simp only [sizePulse]; nlinarith
  · simp only [sizePulse]; nlinarith
  · simp only [glPointSize, viewDepth]; norm_num

/-- C4: the breathing modulation is periodic with period `2π/speed`: for every
time `t`, speed `s > 0` and phase `p`, the breathing scalar and the derived
opacity, intensity and size pulse coincide at `t` and at `t + 2π/s`. -/
theorem breathing_periodic (t s p : ℝ) (hs : 0 < s) :
    sineWave (t + 2 * Real.pi / s) s p = sineWave t s p ∧
    vOpacity (t + 2 * Real.pi / s) s p = vOpacity t s p ∧
    vIntensity (t + 2 * Real.pi / s) s p = vIntensity t s p ∧
    sizePulse (t + 2 * Real.pi / s) s p = sizePulse t s p := by
  have hkey : sineWave (t + 2 * Real.pi / s) s p = sineWave t s p := by
    have hs0 : s ≠ 0 := ne_of_gt hs
    have harg : (t + 2 * Real.pi / s) * s + p = (t * s + p) + 2 * Real.pi := by
      field_simp
      ring
    unfold sineWave
    rw [harg, Real.sin_add_two_pi]
  exact ⟨hkey, by unfold vOpacity; rw [hkey], by unfold vIntensity; rw [hkey],
    by unfold sizePulse; rw [hkey]⟩

/-- Witness for C4 at the concrete input `t = 0`, `s = 1`, `p = 0`. -/
theorem breathing_periodic_witness :
    sineWave (0 + 2 * Real.pi / 1) 1 0 = sineWave 0 1 0 ∧
    vOpacity (0 + 2 * Real.pi / 1) 1 0 = vOpacity 0 1 0 ∧
    vIntensity (0 + 2 * Real.pi / 1) 1 0 = vIntensity 0 1 0 ∧
    sizePulse (0 + 2 * Real.pi / 1) 1 0 = sizePulse 0 1 0 :=
  breathing_periodic 0 1 0 one_pos

/-- Induction on a flat coordinate array three entries at a time, following
the recursion pattern of `snowUpdate`. -/
theorem chunk3_induction {motive : List ℝ → Prop} (h0 : motive [])
    (h1 : ∀ x, motive [x]) (h2 : ∀ x y, motive [x, y])
    (h3 : ∀ x y z rest, motive rest → motive (x :: y :: z :: rest)) :
    ∀ l, motive l
  | [] => h0
  | [x] => h1 x
  | [x, y] => h2 x y
  | x :: y :: z :: rest => h3 x y z rest (chunk3_induction h0 h1 h2 h3 rest)

theorem snowUpdate_length (t : ℝ) (l : List ℝ) :
    (snowUpdate t l).length = l.length := by
  induction l using chunk3_induction with
  | h0 => simp [snowUpdate]
  | h1 x => simp [snowUpdate]
  | h2 x y => simp [snowUpdate]
  | h3 x y z rest ih => simp [snowUpdate, ih]

theorem snowUpdate_getElem_z (t : ℝ) (l : List ℝ) :
    ∀ i : ℕ, i % 3 = 2 → (snowUpdate t l)[i]? = l[i]? := by
  induction l using chunk3_induction with
  | h0 => intro i _; simp [snowUpdate]
  | h1 x => intro i _; simp [snowUpdate]
  | h2 x y =>
      intro i hi
      have h2i : 2 ≤ i := by omega
      rw [List.getElem?_eq_none (l := snowUpdate t [x, y]) (by simp [snowUpdate]; omega),
        List.getElem?_eq_none (by simp; omega)]
  | h3 x y z rest ih =>
      intro i hi
      match i with
      | 0 => exact absurd hi (by decide)
      | 1 => exact absurd hi (by decide)
      | 2 => simp [snowUpdate]
      | (j + 3) =>
          have hj : j % 3 = 2 := by omega
          simpa [snowUpdate] using ih j hj

theorem snowUpdate_getElem_y (t : ℝ) (l : List ℝ) :
    ∀ i : ℕ, i % 3 = 1 →
      (snowUpdate t l)[i]? = (l[i]?).map fun y => snowWrapY (snowFallY y) := by
  induction l using chunk3_induction with
  | h0 => intro i _; simp [snowUpdate]
  | h1 x =>
      intro i hi
      have h1i : 1 ≤ i := by omega
      rw [List.getElem?_eq_none (l := snowUpdate t [x]) (by simp [snowUpdate]; omega),
        List.getElem?_eq_none (by simp; omega)]
      simp
  | h2 x y =>
      intro i hi
      match i with
      | 1 => simp [snowUpdate]
      | (j + 3) =>
          rw [List.getElem?_eq_none (l := snowUpdate t [x, y]) (by simp [snowUpdate]),
            List.getElem?_eq_none (by simp)]
          simp
  | h3 x y z rest ih =>
      intro i hi
      match i with
      | 1 => simp [snowUpdate]
      | (j + 3) =>
          have hj : j % 3 = 1 := by omega
          simpa [snowUpdate] using ih j hj

/-- The flat update agrees with updating whole particles. -/
theorem snowUpdate_flat3 (t : ℝ) (ps : List (ℝ × ℝ × ℝ)) :
    snowUpdate t (flat3 ps) = flat3 (ps.map (snowTick t)) := by
  induction ps with
  | nil => simp [flat3, snowUpdate]
  | cons p ps ih => simp [flat3, snowUpdate, snowTick, ih]

theorem snowWrapY_fall_bounds (y : ℝ) (h : y ≤ 20) :
    -20 ≤ snowWrapY (snowFallY y) ∧ snowWrapY (snowFallY y) ≤ 20 := by
  unfold snowWrapY snowFallY
  split_ifs with hlt
  · norm_num
  · push_neg at hlt
    constructor <;> linarith

theorem yBounded_snowUpdate (t : ℝ) (l : List ℝ) (h : yBounded l) :
    yBounded (snowUpdate t l) := by
  intro i y hi hget
  rw [snowUpdate_getElem_y t l i hi] at hget
  obtain ⟨y0, hy0, rfl⟩ := Option.map_eq_some'.mp hget
  exact snowWrapY_fall_bounds y0 (h i y0 hi hy0).2

theorem yBounded_snowRun (ts : List ℝ) (l : List ℝ) (h : yBounded l) :
    yBounded (snowRun ts l) := by
  induction ts generalizing l with
  | nil => exact h
  | cons t ts ih => exact ih (snowUpdate t l) (yBounded_snowUpdate t l h)

theorem flat3_getElem_y (ps : List (ℝ × ℝ × ℝ)) :
    ∀ k : ℕ, (flat3 ps)[3 * k + 1]? = (ps[k]?).map fun p => p.2.1 := by
  induction ps with
  | nil => intro k; simp [flat3]
  | cons p ps ih =>
      intro k
      match k with
      | 0 => simp [flat3]
      | (k + 1) =>
          have hidx : 3 * (k + 1) + 1 = (3 * k + 1) + 3 := by ring
          rw [hidx]
          simpa [flat3] using ih k

theorem yBounded_createSnow (rs : List (ℝ × ℝ × ℝ))
    (hr : ∀ r ∈ rs, isRand r.2.1) : yBounded (createSnowPositions rs) := by
  intro i y hi hget
  have hidx : i = 3 * (i / 3) + 1 := by omega
  rw [hidx, createSnowPositions, flat3_getElem_y] at hget
  obtain ⟨p, hp, rfl⟩ := Option.map_eq_some'.mp hget
  have hpmem : p ∈ rs.map fun r => snowPosition r.1 r.2.1 r.2.2 :=
    List.getElem?_mem hp
  obtain ⟨r, hrmem, rfl⟩ := List.mem_map.mp hpmem
  obtain ⟨h0, h1⟩ := hr r hrmem
  simp only [snowPosition]
  constructor <;> nlinarith

/-- C1: starting from the initial snow buffer (whose y draws come from
`Math.random()`), after any number of update ticks every snow particle's y
coordinate (index `≡ 1 (mod 3)` of the flat buffer) lies within `[-20, 20]`;
and whenever a tick's constant-rate fall takes a y coordinate below `-20`,
that same tick resets it to exactly `20`. -/
theorem snow_wrap_invariant (rs : List (ℝ × ℝ × ℝ))
    (hr : ∀ r ∈ rs, isRand r.1 ∧ isRand r.2.1 ∧ isRand r.2.2) (ts : List ℝ) :
    yBounded (snowRun ts (createSnowPositions rs)) ∧
    ∀ (t : ℝ) (l : List ℝ) (i : ℕ) (y : ℝ), i % 3 = 1 → l[i]? = some y →
      snowFallY y < -20 → (snowUpdate t l)[i]? = some 20 := by
  constructor
  · exact yBounded_snowRun ts _ (yBounded_createSnow rs fun r h => (hr r h).2.1)
  · intro t l i y hi hget hfall
    rw [snowUpdate_getElem_y t l i hi, hget]
    simp [snowWrapY, hfall]

/-- Witness for C1 at the one-particle buffer drawn from randoms
`(1/2, 1/2, 1/2)` and a single tick at time `0`. -/
theorem snow_wrap_invariant_witness :
    yBounded (snowRun [0] (createSnowPositions [(1 / 2, 1 / 2, 1 / 2)])) ∧
    ∀ (t : ℝ) (l : List ℝ) (i : ℕ) (y : ℝ), i % 3 = 1 → l[i]? = some y →
      snowFallY y < -20 → (snowUpdate t l)[i]? = some 20 :=
  snow_wrap_invariant [(1 / 2, 1 / 2, 1 / 2)] (by
    intro r hrm
    simp only [List.mem_singleton] at hrm
    subst hrm
    refine ⟨⟨?_, ?_⟩, ⟨?_, ?_⟩, ⟨?_, ?_⟩⟩ <;> norm_num) [0]

/-- C10: each tick of the snow update leaves the buffer length unchanged and
never touches a z coordinate (index `≡ 2 (mod 3)`); on whole particles the
tick is exactly `(x, y, z) ↦ (drift x, wrap (fall y), z)`, so only the x and
y coordinates are mutated. -/
theorem snow_frame_effect (t : ℝ) :
    (∀ l : List ℝ, (snowUpdate t l).length = l.length) ∧
    (∀ (l : List ℝ) (i : ℕ), i % 3 = 2 → (snowUpdate t l)[i]? = l[i]?) ∧
    (∀ ps : List (ℝ × ℝ × ℝ), snowUpdate t (flat3 ps) = flat3 (ps.map (snowTick t))) ∧
    ∀ p : ℝ × ℝ × ℝ, (snowTick t p).2.2 = p.2.2 :=
  ⟨fun l => snowUpdate_length t l,
   fun l i hi => snowUpdate_getElem_z t l i hi,
   fun ps => snowUpdate_flat3 t ps,
   fun _ => rfl⟩

theorem createGlitterTree_lengths (rs : List TreeRand) :
    (createGlitterTree rs).positions.length = rs.length ∧
    (createGlitterTree rs).colors.length = rs.length ∧
    (createGlitterTree rs).sizes.length = rs.length ∧
    (createGlitterTree rs).speeds.length = rs.length ∧
    (createGlitterTree rs).phases.length = rs.length := by
  induction rs with
  | nil => simp [createGlitterTree]
  | cons r rs ih =>
      obtain ⟨a, b, c, d, e⟩ := ih
      simp [createGlitterTree, a, b, c, d, e]

theorem createSolidHeart_lengths (rs : List HeartRand) :
    (createSolidHeart rs).positions.length = rs.length ∧
    (createSolidHeart rs).colors.length = rs.length ∧
    (createSolidHeart rs).sizes.length = rs.length ∧
    (createSolidHeart rs).speeds.length = rs.length ∧
    (createSolidHeart rs).phases.length = rs.length := by
  induction rs with
  | nil => simp [createSolidHeart]
  | cons r rs ih =>
      obtain ⟨a, b, c, d, e⟩ := ih
      simp [createSolidHeart, a, b, c, d, e]

theorem createSwirlingBase_lengths (rs : List BaseRand) :
    (createSwirlingBase rs).positions.length = rs.length ∧
    (createSwirlingBase rs).colors.length = rs.length ∧
    (createSwirlingBase rs).sizes.length = rs.length ∧
    (createSwirlingBase rs).speeds.length = rs.length ∧
    (createSwirlingBase rs).phases.length = rs.length := by
  induction rs with
  | nil => simp [createSwirlingBase]
  | cons r rs ih =>
      obtain ⟨a, b, c, d, e⟩ := ih
      simp [createSwirlingBase, a, b, c, d, e]

theorem flat3_length (ps : List (ℝ × ℝ × ℝ)) : (flat3 ps).length = 3 * ps.length := by
  induction ps with
  | nil => simp [flat3]
  | cons p ps ih => simp [flat3, ih]; ring

theorem createSnowPositions_length (rs : List (ℝ × ℝ × ℝ)) :
    (createSnowPositions rs).length = 3 * rs.length := by
  rw [createSnowPositions, flat3_length, List.length_map]

theorem tierIndex_bounds (r : TreeRand) (h : isRand r.tierR) :
    0 ≤ tierIndex r ∧ tierIndex r ≤ 7 := by
  obtain ⟨h0, h1⟩ := h
  unfold tierIndex treeTiers
  constructor
  · have hz : (0 : ℤ) ≤ ⌊r.tierR * 8⌋ := Int.floor_nonneg.mpr (by nlinarith)
    exact_mod_cast hz
  · have hlt : ⌊r.tierR * 8⌋ < 8 := by
      apply Int.floor_lt.mpr
      push_cast
      nlinarith
    have h7 : ⌊r.tierR * 8⌋ ≤ 7 := by omega
    exact_mod_cast h7

theorem tier_span (r : TreeRand) : tierHeightEnd r - tierHeightStart r = 1.35 := by
  unfold tierHeightEnd tierHeightStart treeTiers treeTotalHeight
  ring_nf

theorem tierProgress_eq (r : TreeRand) : tierProgress r = r.yR := by
  unfold tierProgress treeY
  rw [add_sub_cancel_left, tier_span]
  rw [mul_div_cancel_right₀ _ (by norm_num : (1.35 : ℝ) ≠ 0)]

theorem treeY_bounds (r : TreeRand) (ht : isRand r.tierR) (hy : isRand r.yR) :
    0 ≤ treeY r ∧ treeY r ≤ 11.85 := by
  obtain ⟨hk0, hk7⟩ := tierIndex_bounds r ht
  obtain ⟨hy0, hy1⟩ := hy
  have hstart : tierHeightStart r = tierIndex r * 1.5 := by
    unfold tierHeightStart treeTiers treeTotalHeight
    ring
  have hspan := tier_span r
  unfold treeY
  rw [hspan, hstart]
  constructor <;> nlinarith

theorem rRatio_bounds (r : TreeRand) (h : isRand r.radR) :
    0 ≤ rRatio r ∧ rRatio r ≤ 1 := by
  obtain ⟨h0, h1⟩ := h
  unfold rRatio
  exact ⟨Real.rpow_nonneg h0 _, Real.rpow_le_one h0 (le_of_lt h1) (by norm_num)⟩

theorem treeR_bounds (r : TreeRand) (ht : isRand r.tierR) (hy : isRand r.yR)
    (hrad : isRand r.radR) :
    0 ≤ treeR r ∧ treeR r ≤ treeMaxRadius * (1 - overallProgress r) * 1.3 := by
  have hyb := treeY_bounds r ht hy
  have hrr := rRatio_bounds r hrad
  have htp := tierProgress_eq r
  have hflare0 : 0 ≤ 1.0 + 0.3 * (1 - tierProgress r) := by rw [htp]; nlinarith [hy.2]
  have hflare1 : 1.0 + 0.3 * (1 - tierProgress r) ≤ 1.3 := by rw [htp]; nlinarith [hy.1]
  have h1op : 0 ≤ 1 - overallProgress r := by
    unfold overallProgress treeTotalHeight
    nlinarith [hyb.2]
  have hA : 0 ≤ radiusAtY r := by
    unfold radiusAtY treeMaxRadius
    exact mul_nonneg (mul_nonneg (by norm_num) h1op) hflare0
  have hB : radiusAtY r ≤ treeMaxRadius * (1 - overallProgress r) * 1.3 := by
    unfold radiusAtY
    exact mul_le_mul_of_nonneg_left hflare1
      (mul_nonneg (by unfold treeMaxRadius; norm_num) h1op)
  constructor
  · exact mul_nonneg hA hrr.1
  · exact le_trans (mul_le_of_le_one_right hA hrr.2) hB

theorem treePosition_bounds (r : TreeRand) (h : isRandTR r) :
    (-6 ≤ (treePosition r).2.1 ∧ (treePosition r).2.1 ≤ 6) ∧
    Real.sqrt ((treePosition r).1 ^ 2 + (treePosition r).2.2 ^ 2)
      ≤ treeMaxRadius * (1 - ((treePosition r).2.1 + 6) / treeTotalHeight) * 1.3 := by
  obtain ⟨ht, hy, hrad, -⟩ := h
  have hyb := treeY_bounds r ht hy
  have hrb := treeR_bounds r ht hy hrad
  constructor
  · simp only [treePosition]
    constructor <;> nlinarith [hyb.1, hyb.2]
  · have hsq : (treePosition r).1 ^ 2 + (treePosition r).2.2 ^ 2 = treeR r ^ 2 := by
      simp only [treePosition]
      have hid := Real.sin_sq_add_cos_sq (treeTheta r)
      nlinarith [hid]
    have hyeq : (treePosition r).2.1 + 6 = treeY r := by
      simp only [treePosition]
      ring
    rw [hsq, Real.sqrt_sq hrb.1, hyeq]
    have hgoal := hrb.2
    simpa [overallProgress] using hgoal

/-- C2: every profile's attribute arrays are parallel with exactly one entry
per generated particle (triples for position and color, scalars for size,
speed, phase; the snow profile has only the flat position array, three floats
per particle), and every tree particle's position has vertical coordinate in
`[-6, 6]` and horizontal radial distance at most `maxRadius (5.5)` scaled by
the linear height falloff and the `1.3` tier flare factor. -/
theorem profile_lengths_and_tree_bounds
    (trs : List TreeRand) (hrs : List HeartRand) (brs : List BaseRand)
    (srs : List (ℝ × ℝ × ℝ)) (htr : ∀ r ∈ trs, isRandTR r) :
    ((createGlitterTree trs).positions.length = trs.length ∧
     (createGlitterTree trs).colors.length = trs.length ∧
     (createGlitterTree trs).sizes.length = trs.length ∧
     (createGlitterTree trs).speeds.length = trs.length ∧
     (createGlitterTree trs).phases.length = trs.length) ∧
    ((createSolidHeart hrs).positions.length = hrs.length ∧
     (createSolidHeart hrs).colors.length = hrs.length ∧
     (createSolidHeart hrs).sizes.length = hrs.length ∧
     (createSolidHeart hrs).speeds.length = hrs.length ∧
     (createSolidHeart hrs).phases.length = hrs.length) ∧
    ((createSwirlingBase brs).positions.length = brs.length ∧
     (createSwirlingBase brs).colors.length = brs.length ∧
     (createSwirlingBase brs).sizes.length = brs.length ∧
     (createSwirlingBase brs).speeds.length = brs.length ∧
     (createSwirlingBase brs).phases.length = brs.length) ∧
    (createSnowPositions srs).length = 3 * srs.length ∧
    ∀ r ∈ trs,
      (-6 ≤ (treePosition r).2.1 ∧ (treePosition r).2.1 ≤ 6) ∧
      Real.sqrt ((treePosition r).1 ^ 2 + (treePosition r).2.2 ^ 2)
        ≤ treeMaxRadius * (1 - ((treePosition r).2.1 + 6) / treeTotalHeight) * 1.3 :=
  ⟨createGlitterTree_lengths trs, createSolidHeart_lengths hrs,
   createSwirlingBase_lengths brs, createSnowPositions_length srs,
   fun r hm => treePosition_bounds r (htr r hm)⟩

/-- Witness for C2 at the one-particle input `[sampleTreeRand]` (empty heart,
base and snow draws). -/
theorem profile_lengths_and_tree_bounds_witness :
    ((createGlitterTree [sampleTreeRand]).positions.length = [sampleTreeRand].length ∧
     (createGlitterTree [sampleTreeRand]).colors.length = [sampleTreeRand].length ∧
     (createGlitterTree [sampleTreeRand]).sizes.length = [sampleTreeRand].length ∧
     (createGlitterTree [sampleTreeRand]).speeds.length = [sampleTreeRand].length ∧
     (createGlitterTree [sampleTreeRand]).phases.length = [sampleTreeRand].length) ∧
    ((createSolidHeart []).positions.length = List.length ([] : List HeartRand) ∧
     (createSolidHeart []).colors.length = List.length ([] : List HeartRand) ∧
     (createSolidHeart []).sizes.length = List.length ([] : List HeartRand) ∧
     (createSolidHeart []).speeds.length = List.length ([] : List HeartRand) ∧
     (createSolidHeart []).phases.length = List.length ([] : List HeartRand)) ∧
    ((createSwirlingBase []).positions.length = List.length ([] : List BaseRand) ∧
     (createSwirlingBase []).colors.length = List.length ([] : List BaseRand) ∧
     (createSwirlingBase []).sizes.length = List.length ([] : List BaseRand) ∧
     (createSwirlingBase []).speeds.length = List.length ([] : List BaseRand) ∧
     (createSwirlingBase []).phases.length = List.length ([] : List BaseRand)) ∧
    (createSnowPositions []).length = 3 * List.length ([] : List (ℝ × ℝ × ℝ)) ∧
    ∀ r ∈ [sampleTreeRand],
      (-6 ≤ (treePosition r).2.1 ∧ (treePosition r).2.1 ≤ 6) ∧
      Real.sqrt ((treePosition r).1 ^ 2 + (treePosition r).2.2 ^ 2)
        ≤ treeMaxRadius * (1 - ((treePosition r).2.1 + 6) / treeTotalHeight) * 1.3 :=
  profile_lengths_and_tree_bounds [sampleTreeRand] [] [] [] (by
    intro r hm
    simp only [List.mem_singleton] at hm
    subst hm
    refine ⟨⟨?_, ?_⟩, ⟨?_, ?_⟩, ⟨?_, ?_⟩, ⟨?_, ?_⟩, ⟨?_, ?_⟩, ⟨?_, ?_⟩, ⟨?_, ?_⟩,
      ⟨?_, ?_⟩⟩ <;> norm_num [sampleTreeRand])

theorem createSolidHeart_positions (rs : List HeartRand) :
    (createSolidHeart rs).positions = rs.map heartPosition := by
  induction rs with
  | nil => simp [createSolidHeart]
  | cons r rs ih => simp [createSolidHeart, ih]

/-- C5: every heart particle is the parametric boundary point at
`t = rand*2π`, depth-jittered in z by a bounded amount, scaled on all three
axes by `sqrt(rand)`, then scaled by `0.05` and offset by `+6.2` in y; the
jitter-free `(x, y)`, read back by undoing the `0.05` scale and `6.2` offset,
lies on or inside the heart boundary curve (in the region swept by shrinking
boundary points toward the origin by factors in `[0, 1]`). -/
theorem heart_interior_fill (rs : List HeartRand) (h : ∀ r ∈ rs, isRandHR r) :
    (createSolidHeart rs).positions = rs.map heartPosition ∧
    ∀ r ∈ rs,
      heartPosition r =
        (heartCurveX (heartT r) * heartScaleVol r * 0.05,
         heartCurveY (heartT r) * heartScaleVol r * 0.05 + 6.2,
         heartJitterZ r * heartScaleVol r * 0.05) ∧
      (-3 ≤ heartJitterZ r ∧ heartJitterZ r < 3) ∧
      ((heartPosition r).1 / 0.05, ((heartPosition r).2.1 - 6.2) / 0.05) ∈ heartRegion := by
  refine ⟨createSolidHeart_positions rs, ?_⟩
  intro r hm
  obtain ⟨htR, hzR, hvolR, -⟩ := h r hm
  refine ⟨rfl, ⟨?_, ?_⟩, ?_⟩
  · unfold heartJitterZ
    nlinarith [hzR.1]
  · unfold heartJitterZ
    nlinarith [hzR.2]
  · refine ⟨heartT r, heartScaleVol r, ?_, ?_, ?_, ?_, ?_⟩
    · unfold heartT
      nlinarith [Real.pi_pos, htR.1]
    · unfold heartT
      nlinarith [Real.pi_pos, htR.1, htR.2]
    · exact Real.sqrt_nonneg _
    · exact Real.sqrt_le_one.mpr (le_of_lt hvolR.2)
    · have h005 : (0.05 : ℝ) ≠ 0 := by norm_num
      simp only [heartPosition]
      rw [Prod.mk.injEq]
      constructor
      · field_simp
        ring
      · field_simp
        ring

/-- Witness for C5 at the one-particle input `[sampleHeartRand]`. -/
theorem heart_interior_fill_witness :
    (createSolidHeart [sampleHeartRand]).positions = [sampleHeartRand].map heartPosition ∧
    ∀ r ∈ [sampleHeartRand],
      heartPosition r =
        (heartCurveX (heartT r) * heartScaleVol r * 0.05,
         heartCurveY (heartT r) * heartScaleVol r * 0.05 + 6.2,
         heartJitterZ r * heartScaleVol r * 0.05) ∧
      (-3 ≤ heartJitterZ r ∧ heartJitterZ r < 3) ∧
      ((heartPosition r).1 / 0.05, ((heartPosition r).2.1 - 6.2) / 0.05) ∈ heartRegion :=
  heart_interior_fill [sampleHeartRand] (by
    intro r hm
    simp only [List.mem_singleton] at hm
    subst hm
    refine ⟨⟨?_, ?_⟩, ⟨?_, ?_⟩, ⟨?_, ?_⟩, ⟨?_, ?_⟩, ⟨?_, ?_⟩, ⟨?_, ?_⟩, ⟨?_, ?_⟩⟩ <;>
      norm_num [sampleHeartRand])

/-- C6: resizing to a 400×300 container sets the camera aspect, renderer
size and composer size to match 400/300, and re-clamps the pixel-ratio
uniform to `min(devicePixelRatio, 2)`, which never exceeds 2; a device pixel
ratio of 3 yields exactly 2. -/
theorem resize_scenario (dpr : ℝ) :
    (onWindowResize (some (400, 300)) dpr (initialViewState 800 600 dpr)).cameraAspect
      = 400 / 300 ∧
    (onWindowResize (some (400, 300)) dpr (initialViewState 800 600 dpr)).rendererSize
      = (400, 300) ∧
    (onWindowResize (some (400, 300)) dpr (initialViewState 800 600 dpr)).composerSize
      = (400, 300) ∧
    (onWindowResize (some (400, 300)) dpr (initialViewState 800 600 dpr)).uPixelRatio
      = min dpr 2 ∧
    (onWindowResize (some (400, 300)) dpr (initialViewState 800 600 dpr)).uPixelRatio ≤ 2 ∧
    (onWindowResize (some (400, 300)) 3 (initialViewState 800 600 3)).uPixelRatio = 2 := by
  refine ⟨rfl, rfl, rfl, rfl, min_le_right _ _, ?_⟩
  show min (3 : ℝ) 2 = 2
  exact min_eq_right (by norm_num)

/-- Counterexample to C7 as stated: the snow generator's reach is not
cube-shaped — the x coordinate attains 22 but the y coordinate cannot, since
the y extent is 40 (`(rand-0.5)*40`) against 50 for x and z. -/
theorem snow_bounds_not_cube : ¬snowBoundsAreCube := by
  intro hcube
  have hx : snowXReach 22 := by
    refine ⟨0.94, 0, 0, ⟨by norm_num, by norm_num⟩, ⟨le_refl 0, by norm_num⟩,
      ⟨le_refl 0, by norm_num⟩, ?_⟩
    simp only [snowPosition]
    norm_num
  obtain ⟨r1, r2, r3, h1, h2, h3, heq⟩ := (hcube 22).mp hx
  simp only [snowPosition] at heq
  nlinarith [h2.1, h2.2]

/-- C7 (amended): every generated snow particle position lies in the
axis-aligned bounding box `[-25,25) × [-20,20) × [-25,25)` (extents
50×40×50, a box rather than a cube), and the snow geometry carries no color,
size, speed or phase attribute and is rendered with a plain points material
instead of the shared sparkle shader material. -/
theorem snow_profile_box (r1 r2 r3 : ℝ)
    (h1 : isRand r1) (h2 : isRand r2) (h3 : isRand r3) :
    (-25 ≤ (snowPosition r1 r2 r3).1 ∧ (snowPosition r1 r2 r3).1 < 25) ∧
    (-20 ≤ (snowPosition r1 r2 r3).2.1 ∧ (snowPosition r1 r2 r3).2.1 < 20) ∧
    (-25 ≤ (snowPosition r1 r2 r3).2.2 ∧ (snowPosition r1 r2 r3).2.2 < 25) ∧
    ("color" ∉ snowAttributeNames ∧ "size" ∉ snowAttributeNames ∧
     "speed" ∉ snowAttributeNames ∧ "phase" ∉ snowAttributeNames) ∧
    snowMaterialKind = MaterialKind.pointsMat ∧
    snowMaterialKind ≠ sparkleMaterialKind := by
  obtain ⟨h10, h11⟩ := h1
  obtain ⟨h20, h21⟩ := h2
  obtain ⟨h30, h31⟩ := h3
  simp only [snowPosition]
  refine ⟨⟨?_, ?_⟩, ⟨?_, ?_⟩, ⟨?_, ?_⟩, by decide, rfl, by decide⟩ <;> nlinarith

/-- Witness for C7 (amended) at the concrete draws `(1/2, 1/2, 1/2)`. -/
theorem snow_profile_box_witness :
    (-25 ≤ (snowPosition (1 / 2) (1 / 2) (1 / 2)).1 ∧
      (snowPosition (1 / 2) (1 / 2) (1 / 2)).1 < 25) ∧
    (-20 ≤ (snowPosition (1 / 2) (1 / 2) (1 / 2)).2.1 ∧
      (snowPosition (1 / 2) (1 / 2) (1 / 2)).2.1 < 20) ∧
    (-25 ≤ (snowPosition (1 / 2) (1 / 2) (1 / 2)).2.2 ∧
      (snowPosition (1 / 2) (1 / 2) (1 / 2)).2.2 < 25) ∧
    ("color" ∉ snowAttributeNames ∧ "size" ∉ snowAttributeNames ∧
     "speed" ∉ snowAttributeNames ∧ "phase" ∉ snowAttributeNames) ∧
    snowMaterialKind = MaterialKind.pointsMat ∧
    snowMaterialKind ≠ sparkleMaterialKind :=
  snow_profile_box (1 / 2) (1 / 2) (1 / 2)
    ⟨by norm_num, by norm_num⟩ ⟨by norm_num, by norm_num⟩ ⟨by norm_num, by norm_num⟩

/-- C8: texture creation returns a (64×64) texture whether or not the 2D
drawing context is available — merely blank when it is not — and scene setup
with an absent mount container creates no state at all. -/
theorem error_handling_degraded_texture_and_absent_mount
    (dpr t0 : ℝ) (snowRands : List (ℝ × ℝ × ℝ)) :
    (∀ b : Bool, createBokehTexture b =
      { canvasWidth := 64, canvasHeight := 64, painted := b }) ∧
    (createBokehTexture false).painted = false ∧
    ∀ b : Bool, setupScene none b dpr snowRands t0 = none :=
  ⟨fun _ => rfl, rfl, fun _ => rfl⟩

theorem handleEvent_cleanup (e : SceneEvent) (s : SceneState) :
    handleEvent e (cleanup s) = cleanup s := by
  cases e with
  | vsync t => simp [handleEvent, cleanup]
  | resize mount dpr => simp [handleEvent, cleanup]

/-- C9: after cleanup, no browser event sequence (vsync ticks, resizes)
changes the state again: the time uniform, the snow buffer and the view
state keep their values, no frame remains scheduled, the listener is
detached, and the renderer is disposed and the scene cleared. -/
theorem teardown_quiescent (s : SceneState) (evs : List SceneEvent) :
    runEvents evs (cleanup s) = cleanup s ∧
    (runEvents evs (cleanup s)).uTime = s.uTime ∧
    (runEvents evs (cleanup s)).snow = s.snow ∧
    (runEvents evs (cleanup s)).view = s.view ∧
    (cleanup s).rafPending = false ∧
    (cleanup s).listenerAttached = false ∧
    (cleanup s).rendererDisposed = true ∧
    (cleanup s).sceneCleared = true := by
  have hrun : runEvents evs (cleanup s) = cleanup s := by
    induction evs with
    | nil => rfl
    | cons e es ih =>
        rw [runEvents, handleEvent_cleanup]
        exact ih
  exact ⟨hrun, by rw [hrun]; rfl, by rw [hrun]; rfl, by rw [hrun]; rfl,
    rfl, rfl, rfl, rfl⟩

end July
